import Mathlib

/-!
Verification of the go-ublk control-plane core: the control-command codec,
the device lifecycle controller, and the ABI layout verifier.

The C sources embedded here are src/internal/uring/ublk_control.c (the
ublksrv_ctrl_cmd record and the five lifecycle wrappers ublk_add_dev,
ublk_set_params, ublk_start_dev, ublk_stop_dev, ublk_del_dev) and
src/test_sqe_offset.c (the simplified io_uring_sqe structure and the
offset report printed by main).
-/

set_option linter.unusedVariables false

namespace GoUblk

/-! ## C structure layout rules

The standard System V AMD64 layout algorithm for structs without
bitfields: each member is placed at the next offset aligned to its
alignment, the struct size is the end offset rounded up to the maximal
member alignment, and a union occupies the maximal member size rounded
up to the maximal member alignment. Members are (name, size, alignment)
triples. -/

def alignUp (n a : Nat) : Nat := ((n + a - 1) / a) * a

/-- Offset of the named member inside a struct whose members start at
accumulated offset acc; none when the name is absent. -/
def offsetofAux : Nat → List (String × Nat × Nat) → String → Option Nat
  | _, [], _ => none
  | acc, (n, sz, al) :: rest, name =>
    let o := alignUp acc al
    if n = name then some o else offsetofAux (o + sz) rest name

def offsetof (ms : List (String × Nat × Nat)) (name : String) : Option Nat :=
  offsetofAux 0 ms name

/-- End offset of the last member of a struct. -/
def structEnd : Nat → List (String × Nat × Nat) → Nat
  | acc, [] => acc
  | acc, (_, sz, al) :: rest => structEnd (alignUp acc al + sz) rest

def maxAlignOf (ms : List (String × Nat × Nat)) : Nat :=
  ms.foldr (fun m a => max m.2.2 a) 1

def structSizeOf (ms : List (String × Nat × Nat)) : Nat :=
  alignUp (structEnd 0 ms) (maxAlignOf ms)

def unionSizeOf (ms : List (String × Nat × Nat)) : Nat :=
  alignUp (ms.foldr (fun m a => max m.2.1 a) 0) (maxAlignOf ms)

/-! ## The control command record

struct ublksrv_ctrl_cmd from src/internal/uring/ublk_control.c:
u32 dev_id; u16 queue_id; u16 len; u64 addr; u64 data;
u16 dev_path_len; u16 pad; u32 reserved. -/

def ublksrv_ctrl_cmd_members : List (String × Nat × Nat) :=
  [("dev_id", 4, 4), ("queue_id", 2, 2), ("len", 2, 2), ("addr", 8, 8),
   ("data", 8, 8), ("dev_path_len", 2, 2), ("pad", 2, 2), ("reserved", 4, 4)]

structure ublksrv_ctrl_cmd where
  dev_id : Nat
  queue_id : Nat
  len : Nat
  addr : Nat
  data : Nat
  dev_path_len : Nat
  pad : Nat
  reserved : Nat
deriving DecidableEq

/-- Little-endian base-256 digits of v, w bytes. -/
def bytesLE : Nat → Nat → List Nat
  | 0, _ => []
  | w + 1, v => v % 256 :: bytesLE w (v / 256)

/-- Value read back from a little-endian byte list. -/
def readNat (bs : List Nat) : Nat :=
  bs.foldr (fun b acc => acc * 256 + b) 0

/-- The w bytes of bs starting at byte offset off, read little-endian. -/
def readLE (bs : List Nat) (off w : Nat) : Nat :=
  readNat ((bs.drop off).take w)

/-- The in-memory bytes of a ublksrv_ctrl_cmd record, fields laid out in
declaration order with the widths of the C types (the layout has no
padding holes: every member offset is already aligned). -/
def ublksrv_ctrl_cmd.serializeBytes (c : ublksrv_ctrl_cmd) : List Nat :=
  bytesLE 4 c.dev_id ++ bytesLE 2 c.queue_id ++ bytesLE 2 c.len ++
  bytesLE 8 c.addr ++ bytesLE 8 c.data ++ bytesLE 2 c.dev_path_len ++
  bytesLE 2 c.pad ++ bytesLE 4 c.reserved

theorem bytesLE_length (w v : Nat) : (bytesLE w v).length = w := by
  induction w generalizing v with
  | zero => rfl
  | succ w ih => simp [bytesLE, ih]

theorem readNat_bytesLE (w v : Nat) : readNat (bytesLE w v) = v % 256 ^ w := by
  induction w generalizing v with
  | zero => simp [bytesLE, readNat, Nat.mod_one]
  | succ w ih =>
    have h : (256 : Nat) ^ (w + 1) = 256 * 256 ^ w := by ring
    simp only [bytesLE, readNat, List.foldr_cons] at *
    rw [ih (v / 256), h, Nat.mod_mul]
    ring

theorem readLE_here (w v : Nat) (suf : List Nat) :
    readLE (bytesLE w v ++ suf) 0 w = v % 256 ^ w := by
  have h := List.take_left (bytesLE w v) suf
  rw [bytesLE_length] at h
  unfold readLE
  rw [List.drop_zero, h, readNat_bytesLE]

theorem readLE_skip (wpre vpre : Nat) (suf : List Nat) (k w : Nat) :
    readLE (bytesLE wpre vpre ++ suf) (wpre + k) w = readLE suf k w := by
  have h : List.drop ((bytesLE wpre vpre).length + k) (bytesLE wpre vpre ++ suf) =
      List.drop k suf := List.drop_append k
  rw [bytesLE_length] at h
  unfold readLE
  rw [h]

/-! ## Opcode constants

The UBLK ioctl request codes defined at the top of ublk_control.c. -/

def UBLK_CMD_ADD_DEV : Nat := 0x04
def UBLK_CMD_SET_PARAMS : Nat := 0x05
def UBLK_CMD_START_DEV : Nat := 0x06
def UBLK_CMD_STOP_DEV : Nat := 0x10
def UBLK_CMD_DEL_DEV : Nat := 0x02
def UBLK_CMD_GET_DEV_INFO : Nat := 0x01
def UBLK_CMD_GET_PARAMS : Nat := 0x09

/-! ## The ioctl primitive

Each wrapper calls ioctl and, when the return value is negative, returns
the negated errno. The abstract kernel result r is an integer whose
negative values are negated kernel error numbers; the C library surfaces a
negative kernel result r as return value -1 with errno set to -r, and a
non-negative result as the value itself with errno untouched. -/

def ioctl_ret (r : Int) : Int := if r < 0 then -1 else r

def ioctl_errno (r errno0 : Int) : Int := if r < 0 then -r else errno0

/-! ## The five lifecycle wrappers

Each wrapper from ublk_control.c builds one ublksrv_ctrl_cmd record and
issues it through ioctl; the embedding returns the record together with
the wrapper return value. The parameters r and errno0 stand for the
kernel result of the ioctl call and the prior value of errno. -/

def ublk_add_dev (fd : Int) (dev_id queue_id len : Nat) (addr : Nat)
    (r errno0 : Int) : ublksrv_ctrl_cmd × Int :=
  let cmd : ublksrv_ctrl_cmd := ⟨dev_id, queue_id, len, addr, 0, 0, 0, 0⟩
  let ret := ioctl_ret r
  (cmd, if ret < 0 then -(ioctl_errno r errno0) else ret)

def ublk_set_params (fd : Int) (dev_id len : Nat) (addr : Nat)
    (r errno0 : Int) : ublksrv_ctrl_cmd × Int :=
  let cmd : ublksrv_ctrl_cmd := ⟨dev_id, 0xFFFF, len, addr, 0, 0, 0, 0⟩
  let ret := ioctl_ret r
  (cmd, if ret < 0 then -(ioctl_errno r errno0) else ret)

def ublk_start_dev (fd : Int) (dev_id pid : Nat)
    (r errno0 : Int) : ublksrv_ctrl_cmd × Int :=
  let cmd : ublksrv_ctrl_cmd := ⟨dev_id, 0xFFFF, 0, 0, pid, 0, 0, 0⟩
  let ret := ioctl_ret r
  (cmd, if ret < 0 then -(ioctl_errno r errno0) else ret)

def ublk_stop_dev (fd : Int) (dev_id : Nat)
    (r errno0 : Int) : ublksrv_ctrl_cmd × Int :=
  let cmd : ublksrv_ctrl_cmd := ⟨dev_id, 0xFFFF, 0, 0, 0, 0, 0, 0⟩
  let ret := ioctl_ret r
  (cmd, if ret < 0 then -(ioctl_errno r errno0) else ret)

def ublk_del_dev (fd : Int) (dev_id : Nat)
    (r errno0 : Int) : ublksrv_ctrl_cmd × Int :=
  let cmd : ublksrv_ctrl_cmd := ⟨dev_id, 0xFFFF, 0, 0, 0, 0, 0, 0⟩
  let ret := ioctl_ret r
  (cmd, if ret < 0 then -(ioctl_errno r errno0) else ret)

/-! ## The submission entry structure

The simplified struct io_uring_sqe from src/test_sqe_offset.c, with each
union and anonymous struct modelled by its size and alignment computed
from its own member list. Scalar sizes are those of the LP64 target the
source assumes: u8 is 1, u16 is 2, u32 and i32 are 4, u64 and pointers
are 8, and an array u64 x 2 is 16 bytes with alignment 8. -/

def sqe_cmd_op_struct : List (String × Nat × Nat) :=
  [("cmd_op", 4, 4), ("pad1", 4, 4)]

def sqe_union_off_members : List (String × Nat × Nat) :=
  [("off", 8, 8), ("addr2", 8, 8),
   ("anon_cmd_op", structSizeOf sqe_cmd_op_struct, maxAlignOf sqe_cmd_op_struct)]

def sqe_union_addr_members : List (String × Nat × Nat) :=
  [("addr", 8, 8), ("splice_off_in", 8, 8), ("pad2", 8, 8)]

def sqe_union_cmd_flags_members : List (String × Nat × Nat) :=
  [("uring_cmd_flags", 4, 4), ("rw_flags", 4, 4)]

def sqe_buf_union_members : List (String × Nat × Nat) :=
  [("buf_index", 2, 2), ("buf_group", 2, 2)]

def sqe_addr_len_struct : List (String × Nat × Nat) :=
  [("addr_len", 2, 2), ("pad4", 2, 2)]

def sqe_splice_union_members : List (String × Nat × Nat) :=
  [("splice_fd_in", 4, 4), ("file_index", 4, 4), ("pad3", 4, 4),
   ("anon_addr_len", structSizeOf sqe_addr_len_struct, maxAlignOf sqe_addr_len_struct)]

def sqe_tail_struct_members : List (String × Nat × Nat) :=
  [("anon_buf", unionSizeOf sqe_buf_union_members, maxAlignOf sqe_buf_union_members),
   ("personality", 2, 2),
   ("anon_splice", unionSizeOf sqe_splice_union_members, maxAlignOf sqe_splice_union_members)]

def sqe_tail_union_members : List (String × Nat × Nat) :=
  [("anon_struct", structSizeOf sqe_tail_struct_members, maxAlignOf sqe_tail_struct_members),
   ("pad5", 16, 8)]

def io_uring_sqe_members : List (String × Nat × Nat) :=
  [("opcode", 1, 1), ("flags", 1, 1), ("ioprio", 2, 2), ("fd", 4, 4),
   ("union_off", unionSizeOf sqe_union_off_members, maxAlignOf sqe_union_off_members),
   ("union_addr", unionSizeOf sqe_union_addr_members, maxAlignOf sqe_union_addr_members),
   ("len", 4, 4),
   ("union_cmd_flags", unionSizeOf sqe_union_cmd_flags_members, maxAlignOf sqe_union_cmd_flags_members),
   ("user_data", 8, 8),
   ("union_tail", unionSizeOf sqe_tail_union_members, maxAlignOf sqe_tail_union_members)]

def io_uring_sqe_size : Nat := structSizeOf io_uring_sqe_members

/-- The (name, offset) pairs printed by main in test_sqe_offset.c, in
print order. A union member sits at the offset of its enclosing union
plus the offset of the chain of anonymous aggregates that contain it;
every direct union member is at relative offset 0 inside the union. -/
def sqe_report : List (String × Option Nat) :=
  [("opcode", offsetof io_uring_sqe_members "opcode"),
   ("fd", offsetof io_uring_sqe_members "fd"),
   ("off", offsetof io_uring_sqe_members "union_off"),
   ("addr", offsetof io_uring_sqe_members "union_addr"),
   ("len", offsetof io_uring_sqe_members "len"),
   ("uring_cmd_flags", offsetof io_uring_sqe_members "union_cmd_flags"),
   ("user_data", offsetof io_uring_sqe_members "user_data"),
   ("buf_index",
    (offsetof io_uring_sqe_members "union_tail").bind fun o =>
      (offsetof sqe_tail_struct_members "anon_buf").map fun i => o + i),
   ("splice_fd_in",
    (offsetof io_uring_sqe_members "union_tail").bind fun o =>
      (offsetof sqe_tail_struct_members "anon_splice").map fun i => o + i)]

/-- The offset for addr3 under SQE128 asserted by the two final printf
lines of main: a hard-coded literal in the source, not computed from the
structure. -/
def sqe128_addr3_reported_offset : Nat := 48

/-- The offset at which the commented-out SQE128 union holding addr3
(a u64, alignment 8) would actually be placed, appended after the last
member of the base structure as written in the source comment. -/
def sqe128_addr3_layout_offset : Nat :=
  alignUp (structEnd 0 io_uring_sqe_members) 8

/-! ## Codec verb dispatch -/

inductive CodecError where
  | UnknownVerb
deriving DecidableEq

/-- The fixed administrative verb set of the codec. -/
def lifecycleVerbs : List String :=
  ["add", "set-parameters", "start", "stop", "delete", "get-info", "get-parameters"]

/-- Modelled from the spec: the codec operation opcode_for, the fixed
verb-to-request-code mapping with the defensive UnknownVerb failure. The
dispatching function itself is not among the shown sources; only the
seven numeric opcode constants it maps to appear in ublk_control.c, and
those constants are taken verbatim from there. -/
def opcode_for (verb : String) : Except CodecError Nat :=
  if verb = "add" then Except.ok UBLK_CMD_ADD_DEV
  else if verb = "set-parameters" then Except.ok UBLK_CMD_SET_PARAMS
  else if verb = "start" then Except.ok UBLK_CMD_START_DEV
  else if verb = "stop" then Except.ok UBLK_CMD_STOP_DEV
  else if verb = "delete" then Except.ok UBLK_CMD_DEL_DEV
  else if verb = "get-info" then Except.ok UBLK_CMD_GET_DEV_INFO
  else if verb = "get-parameters" then Except.ok UBLK_CMD_GET_PARAMS
  else Except.error CodecError.UnknownVerb

/-! ## Device lifecycle controller -/

inductive DevState where
  | Unregistered
  | Added
  | ParametersSet
  | Running
  | Stopped
deriving DecidableEq

inductive CtrlOutcome where
  | ok
  | invalidState
  | handleInvalidated
  | kernelRejection (errno : Nat)
deriving DecidableEq

/-- Modelled from the spec: the Device Lifecycle Controller operation
start. The controller state machine is not among the shown sources; per
the spec, start requires the device to have been added (state Added or
ParametersSet), detects the InvalidState precondition failure before any
kernel call is attempted, and otherwise issues exactly one command
through the source wrapper ublk_start_dev, classifying a negative return
as KernelRejection with the state unchanged. The result carries the
outcome, the next state, and the number of kernel calls issued. -/
def ctrl_start (st : DevState) (fd : Int) (dev_id pid : Nat) (r errno0 : Int) :
    CtrlOutcome × DevState × Nat :=
  if st = DevState.Added ∨ st = DevState.ParametersSet then
    let ret := (ublk_start_dev fd dev_id pid r errno0).2
    if ret < 0 then (CtrlOutcome.kernelRejection (-ret).toNat, st, 1)
    else (CtrlOutcome.ok, DevState.Running, 1)
  else (CtrlOutcome.invalidState, st, 0)

/-! ## Helper lemmas for byte-level reads -/

theorem readLE_skip2 (wpre vpre : Nat) (suf : List Nat) (off k w : Nat)
    (h : off = wpre + k) :
    readLE (bytesLE wpre vpre ++ suf) off w = readLE suf k w := by
  subst h
  exact readLE_skip wpre vpre suf k w

theorem readLE_field (w v : Nat) (suf : List Nat) (h : v < 256 ^ w) :
    readLE (bytesLE w v ++ suf) 0 w = v := by
  rw [readLE_here]
  exact Nat.mod_eq_of_lt h

theorem readLE_bytesLE (w v : Nat) (h : v < 256 ^ w) :
    readLE (bytesLE w v) 0 w = v := by
  unfold readLE
  rw [List.drop_zero, List.take_of_length_le (le_of_eq (bytesLE_length w v)),
    readNat_bytesLE]
  exact Nat.mod_eq_of_lt h

/-! ## Statement abbreviations for the control command layout -/

/-- Each field value fits the width of its C type. -/
abbrev cmdFieldsBounded (c : ublksrv_ctrl_cmd) : Prop :=
  c.dev_id < 2 ^ 32 ∧ c.queue_id < 2 ^ 16 ∧ c.len < 2 ^ 16 ∧
  c.addr < 2 ^ 64 ∧ c.data < 2 ^ 64 ∧ c.dev_path_len < 2 ^ 16 ∧
  c.pad < 2 ^ 16 ∧ c.reserved < 2 ^ 32

/-- The serialized record is 32 bytes and every field reads back from its
published offset at its published width. -/
abbrev cmdReadsBack (c : ublksrv_ctrl_cmd) : Prop :=
  c.serializeBytes.length = 32 ∧
  readLE c.serializeBytes 0 4 = c.dev_id ∧
  readLE c.serializeBytes 4 2 = c.queue_id ∧
  readLE c.serializeBytes 6 2 = c.len ∧
  readLE c.serializeBytes 8 8 = c.addr ∧
  readLE c.serializeBytes 16 8 = c.data ∧
  readLE c.serializeBytes 24 2 = c.dev_path_len ∧
  readLE c.serializeBytes 26 2 = c.pad ∧
  readLE c.serializeBytes 28 4 = c.reserved

/-- The C layout rules place the struct members of ublksrv_ctrl_cmd at
the published offsets with total size 32. -/
abbrev cmdDeclaredLayout : Prop :=
  structSizeOf ublksrv_ctrl_cmd_members = 32 ∧
  offsetof ublksrv_ctrl_cmd_members "dev_id" = some 0 ∧
  offsetof ublksrv_ctrl_cmd_members "queue_id" = some 4 ∧
  offsetof ublksrv_ctrl_cmd_members "len" = some 6 ∧
  offsetof ublksrv_ctrl_cmd_members "addr" = some 8 ∧
  offsetof ublksrv_ctrl_cmd_members "data" = some 16 ∧
  offsetof ublksrv_ctrl_cmd_members "dev_path_len" = some 24 ∧
  offsetof ublksrv_ctrl_cmd_members "pad" = some 26 ∧
  offsetof ublksrv_ctrl_cmd_members "reserved" = some 28

/-! ## Claim theorems -/

/-- C1: every ControlCommand record any operation builds has the exact
fixed binary layout: total size 32 bytes, with dev_id (32-bit) at offset
0, queue_id (16-bit) at 4, len (16-bit) at 6, addr (64-bit) at 8, data
(64-bit) at 16, dev_path_len (16-bit) at 24, pad (16-bit) at 26 and
reserved (32-bit) at 28; stated for an arbitrary record whose fields fit
their C types, hence for the record built by each of the five
operations, together with the member offsets the C layout rules assign
to struct ublksrv_ctrl_cmd. -/
theorem ctrl_cmd_binary_layout (c : ublksrv_ctrl_cmd) (h : cmdFieldsBounded c) :
    cmdDeclaredLayout ∧ cmdReadsBack c := by
  obtain ⟨h1, h2, h3, h4, h5, h6, h7, h8⟩ := h
  refine ⟨by decide, ?_, ?_, ?_, ?_, ?_, ?_, ?_, ?_, ?_⟩ <;>
    simp only [cmdReadsBack, ublksrv_ctrl_cmd.serializeBytes, List.append_assoc]
  · simp [List.length_append, bytesLE_length]
  · exact readLE_field 4 c.dev_id _ (lt_of_lt_of_eq h1 (by norm_num))
  · rw [readLE_skip2 4 c.dev_id _ 4 0 2 rfl]
    exact readLE_field 2 c.queue_id _ (lt_of_lt_of_eq h2 (by norm_num))
  · rw [readLE_skip2 4 c.dev_id _ 6 2 2 rfl, readLE_skip2 2 c.queue_id _ 2 0 2 rfl]
    exact readLE_field 2 c.len _ (lt_of_lt_of_eq h3 (by norm_num))
  · rw [readLE_skip2 4 c.dev_id _ 8 4 8 rfl, readLE_skip2 2 c.queue_id _ 4 2 8 rfl,
      readLE_skip2 2 c.len _ 2 0 8 rfl]
    exact readLE_field 8 c.addr _ (lt_of_lt_of_eq h4 (by norm_num))
  · rw [readLE_skip2 4 c.dev_id _ 16 12 8 rfl, readLE_skip2 2 c.queue_id _ 12 10 8 rfl,
      readLE_skip2 2 c.len _ 10 8 8 rfl, readLE_skip2 8 c.addr _ 8 0 8 rfl]
    exact readLE_field 8 c.data _ (lt_of_lt_of_eq h5 (by norm_num))
  · rw [readLE_skip2 4 c.dev_id _ 24 20 2 rfl, readLE_skip2 2 c.queue_id _ 20 18 2 rfl,
      readLE_skip2 2 c.len _ 18 16 2 rfl, readLE_skip2 8 c.addr _ 16 8 2 rfl,
      readLE_skip2 8 c.data _ 8 0 2 rfl]
    exact readLE_field 2 c.dev_path_len _ (lt_of_lt_of_eq h6 (by norm_num))
  · rw [readLE_skip2 4 c.dev_id _ 26 22 2 rfl, readLE_skip2 2 c.queue_id _ 22 20 2 rfl,
      readLE_skip2 2 c.len _ 20 18 2 rfl, readLE_skip2 8 c.addr _ 18 10 2 rfl,
      readLE_skip2 8 c.data _ 10 2 2 rfl, readLE_skip2 2 c.dev_path_len _ 2 0 2 rfl]
    exact readLE_field 2 c.pad _ (lt_of_lt_of_eq h7 (by norm_num))
  · rw [readLE_skip2 4 c.dev_id _ 28 24 4 rfl, readLE_skip2 2 c.queue_id _ 24 22 4 rfl,
      readLE_skip2 2 c.len _ 22 20 4 rfl, readLE_skip2 8 c.addr _ 20 12 4 rfl,
      readLE_skip2 8 c.data _ 12 4 4 rfl, readLE_skip2 2 c.dev_path_len _ 4 2 4 rfl,
      readLE_skip2 2 c.pad _ 2 0 4 rfl]
    exact readLE_bytesLE 4 c.reserved (lt_of_lt_of_eq h8 (by norm_num))

/-- C1 witness: the layout theorem applied to the concrete record that
ublk_add_dev builds for device 7, queue 0, an 80-byte parameter block at
address 654321. -/
theorem ctrl_cmd_binary_layout_witness :
    cmdFieldsBounded ((ublk_add_dev 3 7 0 80 654321 0 0).1) ∧
    (cmdDeclaredLayout ∧ cmdReadsBack ((ublk_add_dev 3 7 0 80 654321 0 0).1)) :=
  ⟨by decide, ctrl_cmd_binary_layout ((ublk_add_dev 3 7 0 80 654321 0 0).1) (by decide)⟩

/-- C2: the ABI verifier reports for the submission-entry structure
exactly the fixed table opcode at 0, fd at 4, off at 8, addr at 16, len
at 24, uring_cmd_flags at 28, user_data at 32, buf_index at 40 and
splice_fd_in at 44, and the total size it reports equals the fixed value
56 determined by the compiled layout of the simplified structure. -/
theorem sqe_reported_offsets :
    sqe_report =
      [("opcode", some 0), ("fd", some 4), ("off", some 8), ("addr", some 16),
       ("len", some 24), ("uring_cmd_flags", some 28), ("user_data", some 32),
       ("buf_index", some 40), ("splice_fd_in", some 44)] ∧
    io_uring_sqe_size = 56 := by
  constructor <;> rfl

/-- C3: for every lifecycle operation and every kernel result, a
negative result -N makes the operation return the failure -N, carrying
errno N verbatim, and a non-negative result is returned unchanged as
success. -/
theorem lifecycle_errno_propagation (fd : Int) (d q l a p : Nat) (e0 : Int) :
    (∀ N : Nat, 0 < N →
      (ublk_add_dev fd d q l a (-(N : Int)) e0).2 = -(N : Int) ∧
      (ublk_set_params fd d l a (-(N : Int)) e0).2 = -(N : Int) ∧
      (ublk_start_dev fd d p (-(N : Int)) e0).2 = -(N : Int) ∧
      (ublk_stop_dev fd d (-(N : Int)) e0).2 = -(N : Int) ∧
      (ublk_del_dev fd d (-(N : Int)) e0).2 = -(N : Int)) ∧
    (∀ r : Int, 0 ≤ r →
      (ublk_add_dev fd d q l a r e0).2 = r ∧
      (ublk_set_params fd d l a r e0).2 = r ∧
      (ublk_start_dev fd d p r e0).2 = r ∧
      (ublk_stop_dev fd d r e0).2 = r ∧
      (ublk_del_dev fd d r e0).2 = r) := by
  constructor
  · intro N hN
    have hneg : (-(N : Int)) < 0 := by omega
    refine ⟨?_, ?_, ?_, ?_, ?_⟩ <;>
      simp only [ublk_add_dev, ublk_set_params, ublk_start_dev, ublk_stop_dev,
        ublk_del_dev, ioctl_ret, ioctl_errno] <;>
      split_ifs <;> omega
  · intro r hr
    refine ⟨?_, ?_, ?_, ?_, ?_⟩ <;>
      simp only [ublk_add_dev, ublk_set_params, ublk_start_dev, ublk_stop_dev,
        ublk_del_dev, ioctl_ret, ioctl_errno] <;>
      split_ifs <;> omega

/-- C3 witness: a simulated kernel result of -16 makes the start wrapper
return the failure -16, errno 16 verbatim, and the kernel result 0 makes
the add wrapper return success 0. -/
theorem lifecycle_errno_propagation_witness :
    (0 < 16 ∧ (ublk_start_dev 3 7 1234 (-(16 : Int)) 0).2 = -(16 : Int)) ∧
    ((0 : Int) ≤ 0 ∧ (ublk_add_dev 3 7 0 80 654321 0 0).2 = 0) :=
  ⟨⟨by decide,
    ((lifecycle_errno_propagation 3 7 0 80 654321 1234 0).1 16 (by decide)).2.2.1⟩,
   ⟨by decide,
    ((lifecycle_errno_propagation 3 7 0 80 654321 1234 0).2 0 (by decide)).1⟩⟩

/-- C4: the verifier asserts offset 48 for addr3 under extended entry
mode, while the base structure it measures has size 56 and a trailing
u64 union appended to it would sit at offset 56, so the reported
extended-region offset does not equal the base structure size; addr3 is
indeed absent from the base member list and the base report. The claim
matches the spec intent (the extended region begins immediately after
the base structure); the hard-coded 48 in the source contradicts the
layout of the very structure the program measures. -/
theorem sqe128_addr3_note_mismatch :
    sqe128_addr3_reported_offset = 48 ∧
    io_uring_sqe_size = 56 ∧
    sqe128_addr3_layout_offset = 56 ∧
    sqe128_addr3_reported_offset ≠ io_uring_sqe_size ∧
    offsetof io_uring_sqe_members "addr3" = none ∧
    sqe_report.all (fun p => p.1 ≠ "addr3") = true := by
  refine ⟨rfl, rfl, rfl, by decide, rfl, by decide⟩

/-- C5: for a fresh device in state Unregistered, start yields the
InvalidState failure, leaves the state unchanged, and issues zero kernel
calls. -/
theorem start_unregistered_invalid_state (fd : Int) (d p : Nat) (r e0 : Int) :
    ctrl_start DevState.Unregistered fd d p r e0 =
      (CtrlOutcome.invalidState, DevState.Unregistered, 0) := rfl

/-- C6 counterexample: the add operation with caller-supplied queue_id 0
builds a ControlCommand whose queue_id is 0, not the all-bits-set
sentinel 0xFFFF, although add is in the claimed verb set. -/
theorem add_queue_id_not_sentinel :
    (ublk_add_dev 3 7 0 80 654321 0 0).1.queue_id ≠ 0xFFFF := by decide

/-- C6 amended: for every verb among set-parameters, start, stop and
delete, the encoded ControlCommand queue_id equals the reserved
all-bits-set sentinel 0xFFFF; the add verb instead encodes the
caller-supplied queue_id argument. -/
theorem queue_id_sentinel_non_add (fd : Int) (d q l a p : Nat) (r e0 : Int) :
    (ublk_set_params fd d l a r e0).1.queue_id = 0xFFFF ∧
    (ublk_start_dev fd d p r e0).1.queue_id = 0xFFFF ∧
    (ublk_stop_dev fd d r e0).1.queue_id = 0xFFFF ∧
    (ublk_del_dev fd d r e0).1.queue_id = 0xFFFF ∧
    (ublk_add_dev fd d q l a r e0).1.queue_id = q :=
  ⟨rfl, rfl, rfl, rfl, rfl⟩

/-- C7: opcode_for is total over the fixed seven-verb set, mapping each
verb to its numeric request code, and fails with UnknownVerb exactly for
values outside that set. -/
theorem opcode_for_total :
    (opcode_for "add" = Except.ok UBLK_CMD_ADD_DEV ∧
     opcode_for "set-parameters" = Except.ok UBLK_CMD_SET_PARAMS ∧
     opcode_for "start" = Except.ok UBLK_CMD_START_DEV ∧
     opcode_for "stop" = Except.ok UBLK_CMD_STOP_DEV ∧
     opcode_for "delete" = Except.ok UBLK_CMD_DEL_DEV ∧
     opcode_for "get-info" = Except.ok UBLK_CMD_GET_DEV_INFO ∧
     opcode_for "get-parameters" = Except.ok UBLK_CMD_GET_PARAMS) ∧
    (∀ v : String, v ∉ lifecycleVerbs →
      opcode_for v = Except.error CodecError.UnknownVerb) := by
  refine ⟨⟨rfl, rfl, rfl, rfl, rfl, rfl, rfl⟩, ?_⟩
  intro v hv
  unfold opcode_for
  split_ifs with h1 h2 h3 h4 h5 h6 h7 <;>
    first
      | rfl
      | (exfalso; apply hv; simp [lifecycleVerbs]; omega)
      | (exfalso; apply hv; subst_vars; simp [lifecycleVerbs])

/-- C7 witness: a verb outside the fixed set fails with UnknownVerb. -/
theorem opcode_for_total_witness :
    ("format" ∉ lifecycleVerbs) ∧
    opcode_for "format" = Except.error CodecError.UnknownVerb :=
  ⟨by decide, opcode_for_total.2 "format" (by decide)⟩

/-- C8: the verbs encoded without an out-of-band payload (start, stop,
delete) build a ControlCommand with payload_len 0 and payload_addr 0. -/
theorem no_payload_verbs_zero (fd : Int) (d p : Nat) (r e0 : Int) :
    (ublk_start_dev fd d p r e0).1.len = 0 ∧
    (ublk_start_dev fd d p r e0).1.addr = 0 ∧
    (ublk_stop_dev fd d r e0).1.len = 0 ∧
    (ublk_stop_dev fd d r e0).1.addr = 0 ∧
    (ublk_del_dev fd d r e0).1.len = 0 ∧
    (ublk_del_dev fd d r e0).1.addr = 0 :=
  ⟨rfl, rfl, rfl, rfl, rfl, rfl⟩

/-- C9: every ControlCommand built by any of the five operations has the
structural filler fields dev_path_len, pad and reserved all zero. -/
theorem filler_fields_zero (fd : Int) (d q l a p : Nat) (r e0 : Int) :
    ((ublk_add_dev fd d q l a r e0).1.dev_path_len = 0 ∧
     (ublk_add_dev fd d q l a r e0).1.pad = 0 ∧
     (ublk_add_dev fd d q l a r e0).1.reserved = 0) ∧
    ((ublk_set_params fd d l a r e0).1.dev_path_len = 0 ∧
     (ublk_set_params fd d l a r e0).1.pad = 0 ∧
     (ublk_set_params fd d l a r e0).1.reserved = 0) ∧
    ((ublk_start_dev fd d p r e0).1.dev_path_len = 0 ∧
     (ublk_start_dev fd d p r e0).1.pad = 0 ∧
     (ublk_start_dev fd d p r e0).1.reserved = 0) ∧
    ((ublk_stop_dev fd d r e0).1.dev_path_len = 0 ∧
     (ublk_stop_dev fd d r e0).1.pad = 0 ∧
     (ublk_stop_dev fd d r e0).1.reserved = 0) ∧
    ((ublk_del_dev fd d r e0).1.dev_path_len = 0 ∧
     (ublk_del_dev fd d r e0).1.pad = 0 ∧
     (ublk_del_dev fd d r e0).1.reserved = 0) :=
  ⟨⟨rfl, rfl, rfl⟩, ⟨rfl, rfl, rfl⟩, ⟨rfl, rfl, rfl⟩, ⟨rfl, rfl, rfl⟩,
   ⟨rfl, rfl, rfl⟩⟩

/-- C10: the add operation encodes the caller-supplied queue_id argument
unchanged, while every other lifecycle operation forces the fixed value
0xFFFF into the queue_id field; in particular the add encoding is not
constant in queue_id. -/
theorem add_queue_id_passthrough (fd : Int) (d q l a p : Nat) (r e0 : Int) :
    (ublk_add_dev fd d q l a r e0).1.queue_id = q ∧
    (ublk_set_params fd d l a r e0).1.queue_id = 0xFFFF ∧
    (ublk_start_dev fd d p r e0).1.queue_id = 0xFFFF ∧
    (ublk_stop_dev fd d r e0).1.queue_id = 0xFFFF ∧
    (ublk_del_dev fd d r e0).1.queue_id = 0xFFFF ∧
    (ublk_add_dev 0 0 0 0 0 0 0).1.queue_id ≠
      (ublk_add_dev 0 0 1 0 0 0 0).1.queue_id :=
  ⟨rfl, rfl, rfl, rfl, rfl, by decide⟩

end GoUblk
